import Mathlib

/-!
Shallow embedding of `src/metrics.py` (controller-placement metrics driver).

The file `metrics.py` parses command-line options (`parse_args`), loads a
topology graph (weighted or unweighted), builds an all-pairs shortest-path
index, optionally rescales the failure probability, and then either loads
previously computed data or runs the combination enumerator
(`metrics_lib.run_all_combos`), optionally followed by the greedy/heuristic
selectors, and finally writes the JSON/CSV outputs when requested.

The collaborator modules (`metrics_lib`, `topo.os3e`, `os3e_weighted`,
`file_libs`) are external to the repository snapshot; their invocations are
modelled as events in an execution trace, carrying exactly the arguments the
driver passes to them.  `Metrics.__init__` itself is straight-line code, so it
is embedded as a pure function from the parsed options (plus the two candidate
graphs the topology provider could return) to the trace of collaborator calls
and prints, together with an optional terminating error.
-/

namespace CPP

/-- The command-line options surface built by `parse_args` (metrics.py lines
18-70), one field per `add_option` call, with the optparse default values. -/
structure RawOptions where
  from_start : Int := 3
  from_end : Int := 0
  controller_list : Option String := none
  metric : String := "latency"
  all_metrics : Bool := false
  lat_metrics : Bool := false
  write : Bool := false
  weighted : Bool := false
  median : Bool := false
  multiprocess : Bool := true
  processes : Int := 4
  chunksize : Int := 50
  write_combos : Bool := false
  write_dist : Bool := false
  dist_only : Bool := true
  use_prior_opts : Bool := false
  compute_start : Bool := true
  compute_end : Bool := true
  deriving Repr, DecidableEq

/-- The optparse defaults, i.e. the options of an invocation with no flags. -/
def defaultRawOptions : RawOptions := {}

/-- Python truthiness of the optional `controller_list` string
(`if options.controller_list:`): present and non-empty. -/
def strTruthy : Option String → Bool
  | none => false
  | some s => !s.isEmpty

/-- Python truthiness of the optional parsed controller list
(`if options.controllers:`): present and non-empty. -/
def listTruthy : Option (List Int) → Bool
  | none => false
  | some l => !l.isEmpty

/-- Python `s.split(sep)` for a single-character separator, accumulator form:
splits at every occurrence of `sep`, keeping empty fields. -/
def pySplitAux (sep : Char) : List Char → List Char → List String
  | [], acc => [String.mk acc.reverse]
  | c :: cs, acc =>
    if c == sep then String.mk acc.reverse :: pySplitAux sep cs []
    else pySplitAux sep cs (c :: acc)

/-- Python `s.split(sep)` for a single-character separator (as in
`options.controller_list.split(' ')`, metrics.py line 83). -/
def pySplit (s : String) (sep : Char) : List String :=
  pySplitAux sep s.toList []

/-- Strip leading and trailing whitespace from a character list. -/
def pyStrip (cs : List Char) : List Char :=
  ((cs.dropWhile Char.isWhitespace).reverse.dropWhile Char.isWhitespace).reverse

/-- Decimal value of a non-empty all-digit character list; `none` otherwise. -/
def pyDigits? (cs : List Char) : Option Nat :=
  if cs ≠ [] ∧ cs.all Char.isDigit then
    some (cs.foldl (fun acc c => 10 * acc + (c.toNat - 48)) 0)
  else none

/-- Model of Python `int(s)` on strings: surrounding whitespace is ignored,
an optional single sign is followed by one or more decimal digits; any other
shape raises `ValueError`, modelled as `none`. -/
def pyParseInt (s : String) : Option Int :=
  match pyStrip s.toList with
  | [] => none
  | c :: ds =>
    if c = '-' then (pyDigits? ds).map (fun n => -(n : Int))
    else if c = '+' then (pyDigits? ds).map (fun n => (n : Int))
    else (pyDigits? (c :: ds)).map (fun n => (n : Int))

/-- Startup (configuration) errors raised inside `parse_args`: an unknown
`--metric` choice (rejected by optparse) or a `--controller_list` token on
which `int()` raises `ValueError` (metrics.py lines 26-29 and 81-84). -/
inductive ParseError
  | badMetricChoice (metric : String)
  | badControllerToken (token : String)
  deriving Repr, DecidableEq

/-- The options record returned by `parse_args`: the raw options plus the two
derived attributes `options.metrics` and `options.controllers`
(metrics.py lines 73-84). -/
structure Options extends RawOptions where
  metrics : List String
  controllers : Option (List Int)
  deriving Repr, DecidableEq

/-- The metric-list precedence of metrics.py lines 73-78. -/
def metricsList (METRICS : List String) (raw : RawOptions) : List String :=
  if raw.all_metrics then METRICS
  else if raw.lat_metrics then ["latency", "wc_latency"]
  else [raw.metric]

/-- `int(i) for i in options.controller_list.split(' ')` (lines 83-84); the
first non-integer token raises. -/
def parseTokens : List String → Except ParseError (List Int)
  | [] => .ok []
  | t :: ts =>
    match pyParseInt t with
    | none => .error (.badControllerToken t)
    | some v =>
      match parseTokens ts with
      | .error e => .error e
      | .ok vs => .ok (v :: vs)

/-- `options.controllers` (metrics.py lines 80-84): `None` unless
`controller_list` is truthy, else the list of parsed integer tokens. -/
def controllersResult (raw : RawOptions) : Except ParseError (Option (List Int)) :=
  if strTruthy raw.controller_list then
    match parseTokens (pySplit (raw.controller_list.getD "") ' ') with
    | .error e => .error e
    | .ok vals => .ok (some vals)
  else .ok none

/-- `parse_args` (metrics.py lines 18-86): optparse validates the `--metric`
choice against `metrics.METRICS` while parsing, then the metric list and the
controller list are derived.  A configuration error aborts before `Metrics`
does anything. -/
def parseArgs (METRICS : List String) (raw : RawOptions) : Except ParseError Options :=
  if raw.metric ∈ METRICS then
    match controllersResult raw with
    | .error e => .error e
    | .ok cs => .ok { toRawOptions := raw, metrics := metricsList METRICS raw, controllers := cs }
  else .error (.badMetricChoice raw.metric)

/-- The topology graph as consumed by `Metrics.__init__`: only
`number_of_nodes()`, `number_of_edges()` and the per-edge weights
`g[src][dst]['weight']` are read by the driver. -/
structure Graph where
  number_of_nodes : Nat
  edgeWeights : List ℚ
  deriving Repr, DecidableEq

/-- `g.number_of_edges()`: one weight entry per edge. -/
def Graph.number_of_edges (g : Graph) : Nat := g.edgeWeights.length

/-- The all-pairs shortest-path index (`apsp` together with `apsp_paths`,
metrics.py lines 140-150): built by Dijkstra on the weighted graph when
`--weighted` is set, by plain (hop-count) shortest paths otherwise. -/
inductive APSP
  | hopCount (g : Graph)
  | dijkstra (g : Graph)
  deriving Repr, DecidableEq

/-- The extra parameters handed to the metric functions. -/
structure ExtraParams where
  link_fail_prob : ℚ
  max_failures : Int
  deriving Repr, DecidableEq

/-- `EXTRA_PARAMS` (metrics.py lines 90-93) before any rescaling. -/
def EXTRA_PARAMS : ExtraParams := { link_fail_prob := 0.01, max_failures := 2 }

/-- Node-ranking dictionaries passed to `run_greedy_alg_dict`:
`nx.closeness_centrality(g, weighted_edges = options.weighted)` and
`nx.degree_centrality(g)`. -/
inductive Centrality
  | closeness (weighted : Bool)
  | degree
  deriving Repr, DecidableEq

/-- One collaborator call or print performed by `Metrics.__init__`, carrying
the arguments the driver passes.  `runAllCombos` keeps the argument order of
the call at metrics.py lines 156-159 (the mutable `data` dict and the graph
are omitted; `apsp` stands for the index pair `apsp, apsp_paths`).
`printDuration` is the line `print "%0.6f" % total_duration` and `printStars`
the decorative line of asterisks. -/
inductive Event
  | loadGraph (weighted : Bool)
  | buildAPSP (apsp : APSP)
  | readJson (filename : String)
  | runAllCombos (metrics : List String) (controllers : List Int) (apsp : APSP)
      (weighted : Bool) (write_dist : Bool) (write_combos : Bool)
      (extra : ExtraParams) (processes : Int) (multiprocess : Bool)
      (chunksize : Int) (median : Bool)
  | printDuration
  | greedyInformed (apsp : APSP) (weighted : Bool)
  | greedyDict (label : String) (target : String) (rank : Centrality)
      (apsp : APSP) (weighted : Bool)
  | bestN (n : Int) (apsp : APSP) (weighted : Bool)
  | worstN (n : Int) (apsp : APSP) (weighted : Bool)
  | printStars
  | writeJson (filename : String)
  | writeCsv (filename : String) (exclude : List String)
  | writeDistCsv (filename : String) (exclude : List String)
  deriving Repr, DecidableEq

/-- Errors that abort `Metrics.__init__`: a configuration error from
`parse_args`, or Python's `NameError` for a local variable (here
`PRIOR_OPTS_filename`) referenced without having been assigned. -/
inductive InitError
  | parseError (e : ParseError)
  | nameError (name : String)
  deriving Repr, DecidableEq

/-- Outcome of a run: the trace of collaborator calls and prints that were
executed, and the error that aborted the run, if any. -/
structure RunResult where
  events : List Event
  error : Option InitError
  deriving Repr, DecidableEq

/-- Python `range(a, b)` over integers. -/
def pyRange (a b : Int) : List Int :=
  (List.range (b - a).toNat).map (fun i : Nat => a + (i : Int))

/-- Metrics.py lines 108-119: the controller counts to compute data for —
the explicit list when `options.controllers` is truthy, otherwise the
first-N range and/or the last-N range over the node count of `g`. -/
def controllersFor (g : Graph) (options : Options) : List Int :=
  if listTruthy options.controllers then options.controllers.getD []
  else
    (if options.compute_start then pyRange 1 (options.from_start + 1) else []) ++
    (if options.compute_end then
        pyRange ((g.number_of_nodes : Int) - options.from_end + 1)
          ((g.number_of_nodes : Int) + 1)
      else [])

/-- Metrics.py lines 121-132: the output filename stem. -/
def filenameFor (options : Options) (controllers : List Int) : String :=
  let base :=
    "data_out/os3e_" ++ (if options.weighted then "weighted" else "unweighted")
  if strTruthy options.controller_list then
    controllers.foldl (fun acc c => acc ++ "_" ++ toString c) base
  else
    base ++ "_" ++ toString options.from_start ++ "_to_" ++
      toString options.from_end

/-- Metrics.py lines 140-150: the all-pairs index that the run builds —
Dijkstra on the weighted graph when `--weighted` is set, hop-count shortest
paths on the unweighted graph otherwise. -/
def builtAPSP (gUnweighted gWeighted : Graph) (weighted : Bool) : APSP :=
  if weighted then .dijkstra gWeighted else .hopCount gUnweighted

/-- Metrics.py lines 143-147: the extra parameters after the weighted-mode
rescale `number_of_edges / float(sum(distances)) * link_fail_prob` of
`EXTRA_PARAMS['link_fail_prob']`; unchanged in unweighted mode. -/
def extraFor (g : Graph) (options : Options) : ExtraParams :=
  if options.weighted then
    { link_fail_prob :=
        (g.number_of_edges : ℚ) / g.edgeWeights.sum * EXTRA_PARAMS.link_fail_prob,
      max_failures := EXTRA_PARAMS.max_failures }
  else EXTRA_PARAMS

/-- Metrics.py lines 173-176: the CSV columns to exclude. -/
def excludeList (options : Options) : List String :=
  ["distribution", "metric", "group", "id"] ++
    (if !options.write_combos then ["highest_combo", "lowest_combo"] else [])

/-- Metrics.py lines 163-169: the greedy/heuristic selector calls, in source
order.  (The selectors record their results into the store under their own
algorithm labels — modelled from the spec, since `metrics_lib` is external.) -/
def greedyCalls (apsp : APSP) (weighted : Bool) : List Event :=
  [.greedyInformed apsp weighted,
   .greedyDict "greedy-cc" "latency" (.closeness weighted) apsp weighted,
   .greedyDict "greedy-dc" "latency" .degree apsp weighted,
   .bestN 10 apsp weighted, .worstN 10 apsp weighted,
   .bestN 100 apsp weighted, .worstN 100 apsp weighted,
   .bestN 1000 apsp weighted, .worstN 1000 apsp weighted]

/-- Metrics.py lines 181-185: the output writes, performed only when
`--write` is set; the distribution CSV additionally needs `--write_dist`. -/
def writeEvents (options : Options) (filename : String) : List Event :=
  if options.write then
    [.writeJson (filename ++ ".json"), .writeCsv filename (excludeList options)] ++
      (if options.write_dist then
          [.writeDistCsv (filename ++ "_dist") (excludeList options)]
        else [])
  else []

/-- Metrics.py lines 163-185: everything after the compute-or-load phase —
greedy selectors (unless `dist_only`), the stars line, and the writes. -/
def tailEvents (options : Options) (apsp : APSP) (filename : String) : List Event :=
  (if !options.dist_only then greedyCalls apsp options.weighted else []) ++
  [.printStars] ++ writeEvents options filename

/-- The body of `Metrics.__init__` (metrics.py lines 98-185) after
`parse_args` succeeded.  `gUnweighted` and `gWeighted` are the graphs the
topology provider returns for `OS3EGraph()` and `OS3EWeightedGraph()`.
`PRIOR_OPTS_filename` is assigned only in the unweighted branch (line 126),
so referencing it on the weighted prior-data path raises `NameError`. -/
def initWithOptions (gUnweighted gWeighted : Graph) (options : Options) : RunResult :=
  let g := if options.weighted then gWeighted else gUnweighted
  let controllers := controllersFor g options
  let priorOptsFilename : Option String :=
    if options.weighted then none else some "data_out/os3e_unweighted_9_9.json"
  let filename := filenameFor options controllers
  let apsp := builtAPSP gUnweighted gWeighted options.weighted
  let extra := extraFor g options
  let prolog : List Event := [.loadGraph options.weighted, .buildAPSP apsp]
  let tail := tailEvents options apsp filename
  -- lines 152-161: either load prior data or run the enumerator and print
  -- the wall-clock duration of the computation phase
  if options.use_prior_opts then
    match priorOptsFilename with
    | none => { events := prolog, error := some (.nameError "PRIOR_OPTS_filename") }
    | some f => { events := prolog ++ [.readJson f] ++ tail, error := none }
  else
    { events := prolog ++
        [.runAllCombos options.metrics controllers apsp options.weighted
           options.write_dist options.write_combos extra options.processes
           options.multiprocess options.chunksize options.median,
         .printDuration] ++ tail,
      error := none }

/-- `Metrics()` end to end: `parse_args`, then the `__init__` body.  A
configuration error aborts before the topology is loaded. -/
def metricsInit (METRICS : List String) (gUnweighted gWeighted : Graph)
    (raw : RawOptions) : RunResult :=
  match parseArgs METRICS raw with
  | .error e => { events := [], error := some (.parseError e) }
  | .ok options => initWithOptions gUnweighted gWeighted options

/-! Trace observations used by the theorems. -/

/-- Is this event the enumerator call? -/
def Event.isRunAllCombos : Event → Bool
  | .runAllCombos .. => true
  | _ => false

/-- Is this event the prior-data JSON read? -/
def Event.isReadJson : Event → Bool
  | .readJson _ => true
  | _ => false

/-- Is this event the all-pairs index construction? -/
def Event.isBuildAPSP : Event → Bool
  | .buildAPSP _ => true
  | _ => false

/-- Is this event the duration print? -/
def Event.isPrintDuration : Event → Bool
  | .printDuration => true
  | _ => false

/-- Is this event one of the greedy/heuristic selector runs? -/
def Event.isGreedy : Event → Bool
  | .greedyInformed .. => true
  | .greedyDict .. => true
  | .bestN .. => true
  | .worstN .. => true
  | _ => false

/-- Is this event an output-file write? -/
def Event.isFileWrite : Event → Bool
  | .writeJson _ => true
  | .writeCsv .. => true
  | .writeDistCsv .. => true
  | _ => false

/-- The all-pairs index an event consumes, if it consumes one. -/
def Event.apspUsed : Event → Option APSP
  | .runAllCombos _ _ a _ _ _ _ _ _ _ _ => some a
  | .greedyInformed a _ => some a
  | .greedyDict _ _ _ a _ => some a
  | .bestN _ a _ => some a
  | .worstN _ a _ => some a
  | _ => none

/-- The extra-parameters record passed to the first enumerator call. -/
def comboExtra (r : RunResult) : Option ExtraParams :=
  r.events.findSome? (fun e => match e with
    | .runAllCombos _ _ _ _ _ _ extra _ _ _ _ => some extra
    | _ => none)

/-- The controller-count list passed to the first enumerator call. -/
def comboControllers (r : RunResult) : Option (List Int) :=
  r.events.findSome? (fun e => match e with
    | .runAllCombos _ controllers _ _ _ _ _ _ _ _ _ => some controllers
    | _ => none)

/-- The scheduling arguments (processes, multiprocess, chunksize) passed to
the first enumerator call. -/
def comboSchedule (r : RunResult) : Option (Int × Bool × Int) :=
  r.events.findSome? (fun e => match e with
    | .runAllCombos _ _ _ _ _ _ _ processes multiprocess chunksize _ =>
        some (processes, multiprocess, chunksize)
    | _ => none)

/-- The metric-name list passed to the first enumerator call. -/
def comboMetrics (r : RunResult) : Option (List String) :=
  r.events.findSome? (fun e => match e with
    | .runAllCombos metrics _ _ _ _ _ _ _ _ _ _ => some metrics
    | _ => none)

/-! Helper lemmas. -/

theorem pySplitAux_ne_nil (sep : Char) (cs : List Char) :
    ∀ acc, pySplitAux sep cs acc ≠ [] := by
  induction cs with
  | nil => intro acc; simp [pySplitAux]
  | cons c cs ih =>
    intro acc
    simp only [pySplitAux]
    split
    · simp
    · exact ih _

theorem pySplit_ne_nil (s : String) (sep : Char) : pySplit s sep ≠ [] :=
  pySplitAux_ne_nil sep s.toList []

theorem parseTokens_ok_length :
    ∀ {ts : List String} {vs : List Int}, parseTokens ts = .ok vs →
      vs.length = ts.length := by
  intro ts
  induction ts with
  | nil => intro vs h; simp [parseTokens] at h; simp [← h]
  | cons t ts ih =>
    intro vs h
    simp only [parseTokens] at h
    cases hp : pyParseInt t with
    | none => rw [hp] at h; cases h
    | some v =>
      rw [hp] at h
      cases hr : parseTokens ts with
      | error e => rw [hr] at h; cases h
      | ok vs' =>
        rw [hr] at h
        cases h
        simp [ih hr]

theorem parseTokens_error_of_mem :
    ∀ {ts : List String} (t : String), t ∈ ts → pyParseInt t = none →
      ∃ e, parseTokens ts = .error e := by
  intro ts
  induction ts with
  | nil => intro t ht; cases ht
  | cons u ts ih =>
    intro t ht hbad
    simp only [parseTokens]
    cases hp : pyParseInt u with
    | none => exact ⟨.badControllerToken u, rfl⟩
    | some v =>
      rcases List.mem_cons.mp ht with rfl | hmem
      · rw [hp] at hbad; cases hbad
      · obtain ⟨e, he⟩ := ih t hmem hbad
        exact ⟨e, by rw [he]⟩

theorem parseArgs_ok_toRaw {METRICS : List String} {raw : RawOptions}
    {opts : Options} (h : parseArgs METRICS raw = .ok opts) :
    opts.toRawOptions = raw := by
  unfold parseArgs at h
  split at h
  · cases hc : controllersResult raw with
    | error e => rw [hc] at h; cases h
    | ok cs => rw [hc] at h; cases h; rfl
  · cases h

theorem parseArgs_ok_metrics {METRICS : List String} {raw : RawOptions}
    {opts : Options} (h : parseArgs METRICS raw = .ok opts) :
    opts.metrics = metricsList METRICS raw := by
  unfold parseArgs at h
  split at h
  · cases hc : controllersResult raw with
    | error e => rw [hc] at h; cases h
    | ok cs => rw [hc] at h; cases h; rfl
  · cases h

theorem parseArgs_ok_controllers {METRICS : List String} {raw : RawOptions}
    {opts : Options} (h : parseArgs METRICS raw = .ok opts) :
    controllersResult raw = .ok opts.controllers := by
  unfold parseArgs at h
  split at h
  · cases hc : controllersResult raw with
    | error e => rw [hc] at h; cases h
    | ok cs => rw [hc] at h; cases h; rfl
  · cases h

theorem parseArgs_ok_listTruthy {METRICS : List String} {raw : RawOptions}
    {opts : Options} (h : parseArgs METRICS raw = .ok opts) :
    listTruthy opts.controllers = strTruthy raw.controller_list := by
  have hc := parseArgs_ok_controllers h
  unfold controllersResult at hc
  by_cases hs : strTruthy raw.controller_list = true
  · rw [if_pos hs] at hc
    cases hp : parseTokens (pySplit (raw.controller_list.getD "") ' ') with
    | error e => rw [hp] at hc; cases hc
    | ok vals =>
      rw [hp] at hc
      injection hc with hc
      have hlen := parseTokens_ok_length hp
      have hne : vals ≠ [] := by
        intro hnil
        apply pySplit_ne_nil (raw.controller_list.getD "") ' '
        have hz : (pySplit (raw.controller_list.getD "") ' ').length = 0 := by
          rw [← hlen, hnil]; rfl
        exact List.length_eq_zero.mp hz
      rw [← hc]
      simp [listTruthy, hs, hne]
  · rw [if_neg hs] at hc
    injection hc with hc
    simp only [Bool.not_eq_true] at hs
    rw [← hc, hs]
    rfl

theorem metricsInit_ok {METRICS : List String} {gU gW : Graph}
    {raw : RawOptions} {opts : Options} (h : parseArgs METRICS raw = .ok opts) :
    metricsInit METRICS gU gW raw = initWithOptions gU gW opts := by
  unfold metricsInit
  rw [h]

theorem metricsInit_err {METRICS : List String} {gU gW : Graph}
    {raw : RawOptions} {e : ParseError} (h : parseArgs METRICS raw = .error e) :
    metricsInit METRICS gU gW raw =
      { events := [], error := some (.parseError e) } := by
  unfold metricsInit
  rw [h]

theorem tail_filter_combo (o : Options) (a : APSP) (f : String) :
    (tailEvents o a f).filter Event.isRunAllCombos = [] := by
  cases hd : o.dist_only <;> cases hw : o.write <;> cases hv : o.write_dist <;>
    simp [tailEvents, greedyCalls, writeEvents, hd, hw, hv, Event.isRunAllCombos]

theorem tail_filter_readJson (o : Options) (a : APSP) (f : String) :
    (tailEvents o a f).filter Event.isReadJson = [] := by
  cases hd : o.dist_only <;> cases hw : o.write <;> cases hv : o.write_dist <;>
    simp [tailEvents, greedyCalls, writeEvents, hd, hw, hv, Event.isReadJson]

theorem tail_filter_buildAPSP (o : Options) (a : APSP) (f : String) :
    (tailEvents o a f).filter Event.isBuildAPSP = [] := by
  cases hd : o.dist_only <;> cases hw : o.write <;> cases hv : o.write_dist <;>
    simp [tailEvents, greedyCalls, writeEvents, hd, hw, hv, Event.isBuildAPSP]

theorem tail_filter_printDuration (o : Options) (a : APSP) (f : String) :
    (tailEvents o a f).filter Event.isPrintDuration = [] := by
  cases hd : o.dist_only <;> cases hw : o.write <;> cases hv : o.write_dist <;>
    simp [tailEvents, greedyCalls, writeEvents, hd, hw, hv, Event.isPrintDuration]

theorem tail_filter_greedy (o : Options) (a : APSP) (f : String) :
    (tailEvents o a f).filter Event.isGreedy =
      if o.dist_only then [] else greedyCalls a o.weighted := by
  cases hd : o.dist_only <;> cases hw : o.write <;> cases hv : o.write_dist <;>
    simp [tailEvents, greedyCalls, writeEvents, hd, hw, hv, Event.isGreedy]

theorem tail_filter_fileWrite (o : Options) (a : APSP) (f : String) :
    (tailEvents o a f).filter Event.isFileWrite = writeEvents o f := by
  cases hd : o.dist_only <;> cases hw : o.write <;> cases hv : o.write_dist <;>
    simp [tailEvents, greedyCalls, writeEvents, hd, hw, hv, Event.isFileWrite]

theorem greedyCalls_apspUsed {a : APSP} {w : Bool} {e : Event}
    (he : e ∈ greedyCalls a w) : e.apspUsed = some a := by
  simp only [greedyCalls, List.mem_cons, List.not_mem_nil, or_false] at he
  rcases he with rfl | rfl | rfl | rfl | rfl | rfl | rfl | rfl | rfl <;> rfl

theorem writeEvents_apspUsed {o : Options} {f : String} {e : Event}
    (he : e ∈ writeEvents o f) : e.apspUsed = none := by
  unfold writeEvents at he
  by_cases hw : o.write = true
  · rw [if_pos hw] at he
    by_cases hv : o.write_dist = true
    · rw [if_pos hv] at he
      simp only [List.mem_append, List.mem_cons, List.not_mem_nil,
        or_false] at he
      rcases he with (rfl | rfl) | rfl <;> rfl
    · rw [if_neg hv] at he
      simp only [List.append_nil, List.mem_cons, List.not_mem_nil,
        or_false] at he
      rcases he with rfl | rfl <;> rfl
  · rw [if_neg hw] at he
    cases he

theorem tail_apspUsed {o : Options} {a : APSP} {f : String} {e : Event}
    (he : e ∈ tailEvents o a f) : e.apspUsed = none ∨ e.apspUsed = some a := by
  unfold tailEvents at he
  rcases List.mem_append.mp he with h | h
  · rcases List.mem_append.mp h with h | h
    · by_cases hd : o.dist_only = true
      · simp [hd] at h
      · simp only [Bool.not_eq_true] at hd
        rw [hd] at h
        simp only [Bool.not_false, if_true] at h
        exact .inr (greedyCalls_apspUsed h)
    · simp only [List.mem_cons, List.not_mem_nil, or_false] at h
      subst h
      exact .inl rfl
  · exact .inl (writeEvents_apspUsed h)

theorem initWithOptions_not_prior {gU gW : Graph} {o : Options}
    (hp : o.use_prior_opts = false) :
    initWithOptions gU gW o =
      { events :=
          [.loadGraph o.weighted, .buildAPSP (builtAPSP gU gW o.weighted)] ++
          [.runAllCombos o.metrics
             (controllersFor (if o.weighted then gW else gU) o)
             (builtAPSP gU gW o.weighted) o.weighted o.write_dist o.write_combos
             (extraFor (if o.weighted then gW else gU) o) o.processes
             o.multiprocess o.chunksize o.median,
           .printDuration] ++
          tailEvents o (builtAPSP gU gW o.weighted)
            (filenameFor o (controllersFor (if o.weighted then gW else gU) o)),
        error := none } := by
  unfold initWithOptions
  rw [hp]
  simp

theorem initWithOptions_prior_unweighted {gU gW : Graph} {o : Options}
    (hp : o.use_prior_opts = true) (hw : o.weighted = false) :
    initWithOptions gU gW o =
      { events :=
          [.loadGraph o.weighted, .buildAPSP (builtAPSP gU gW o.weighted)] ++
          [.readJson "data_out/os3e_unweighted_9_9.json"] ++
          tailEvents o (builtAPSP gU gW o.weighted)
            (filenameFor o (controllersFor (if o.weighted then gW else gU) o)),
        error := none } := by
  unfold initWithOptions
  rw [hp, hw]
  simp

theorem initWithOptions_prior_weighted {gU gW : Graph} {o : Options}
    (hp : o.use_prior_opts = true) (hw : o.weighted = true) :
    initWithOptions gU gW o =
      { events := [.loadGraph o.weighted, .buildAPSP (builtAPSP gU gW o.weighted)],
        error := some (.nameError "PRIOR_OPTS_filename") } := by
  unfold initWithOptions
  rw [hp, hw]
  simp

theorem mem_pyRange {a b x : Int} : x ∈ pyRange a b ↔ a ≤ x ∧ x ≤ b - 1 := by
  unfold pyRange
  rw [List.mem_map]
  constructor
  · rintro ⟨i, hi, rfl⟩
    rw [List.mem_range] at hi
    omega
  · intro hx
    refine ⟨(x - a).toNat, ?_, ?_⟩
    · rw [List.mem_range]; omega
    · omega

theorem pyRange_toFinset (a b : Int) :
    (pyRange a b).toFinset = Finset.Icc a (b - 1) := by
  ext x
  rw [List.mem_toFinset, mem_pyRange, Finset.mem_Icc]

theorem greedyCalls_not_fileWrite {a : APSP} {w : Bool} {e : Event}
    (he : e ∈ greedyCalls a w) : e.isFileWrite = false := by
  simp only [greedyCalls, List.mem_cons, List.not_mem_nil, or_false] at he
  rcases he with rfl | rfl | rfl | rfl | rfl | rfl | rfl | rfl | rfl <;> rfl

theorem mem_writeEvents_writeCsv {o : Options} {f g : String} {ex : List String}
    (h : Event.writeCsv g ex ∈ writeEvents o f) : ex = excludeList o := by
  unfold writeEvents at h
  by_cases hw : o.write = true
  · rw [if_pos hw] at h
    by_cases hv : o.write_dist = true
    · rw [if_pos hv] at h
      simp at h
      exact h.2
    · rw [if_neg hv] at h
      simp at h
      exact h.2
  · rw [if_neg hw] at h
    cases h

theorem mem_writeEvents_writeDistCsv {o : Options} {f g : String}
    {ex : List String} (h : Event.writeDistCsv g ex ∈ writeEvents o f) :
    ex = excludeList o ∧ o.write = true ∧ o.write_dist = true := by
  unfold writeEvents at h
  by_cases hw : o.write = true
  · rw [if_pos hw] at h
    by_cases hv : o.write_dist = true
    · rw [if_pos hv] at h
      simp at h
      exact ⟨h.2, hw, hv⟩
    · rw [if_neg hv] at h
      simp at h
  · rw [if_neg hw] at h
    cases h

theorem mem_tail_fileWrite {o : Options} {a : APSP} {f : String} {e : Event}
    (hfw : e.isFileWrite = true) (he : e ∈ tailEvents o a f) :
    e ∈ writeEvents o f := by
  unfold tailEvents at he
  rcases List.mem_append.mp he with h | h
  · rcases List.mem_append.mp h with h | h
    · by_cases hd : o.dist_only = true
      · simp [hd] at h
      · simp only [Bool.not_eq_true] at hd
        rw [hd] at h
        simp only [Bool.not_false, if_true] at h
        rw [greedyCalls_not_fileWrite h] at hfw
        cases hfw
    · simp only [List.mem_cons, List.not_mem_nil, or_false] at h
      subst h
      cases hfw
  · exact h

theorem mem_init_fileWrite {gU gW : Graph} {o : Options} {e : Event}
    (hfw : e.isFileWrite = true)
    (he : e ∈ (initWithOptions gU gW o).events) :
    e ∈ writeEvents o
      (filenameFor o (controllersFor (if o.weighted then gW else gU) o)) := by
  cases hp : o.use_prior_opts
  · rw [initWithOptions_not_prior hp] at he
    simp only [List.mem_append] at he
    rcases he with (h | h) | h
    · simp only [List.mem_cons, List.not_mem_nil, or_false] at h
      rcases h with rfl | rfl <;> cases hfw
    · simp only [List.mem_cons, List.not_mem_nil, or_false] at h
      rcases h with rfl | rfl <;> cases hfw
    · exact mem_tail_fileWrite hfw h
  · cases hw : o.weighted
    · rw [initWithOptions_prior_unweighted hp hw, hw] at he
      simp only [List.mem_append] at he
      rcases he with (h | h) | h
      · simp only [List.mem_cons, List.not_mem_nil, or_false] at h
        rcases h with rfl | rfl <;> cases hfw
      · simp only [List.mem_cons, List.not_mem_nil, or_false] at h
        subst h
        cases hfw
      · exact mem_tail_fileWrite hfw h
    · rw [initWithOptions_prior_weighted hp hw] at he
      simp only [List.mem_cons, List.not_mem_nil, or_false] at he
      rcases he with rfl | rfl <;> cases hfw

theorem excludeList_eq (o : Options) :
    excludeList o = ["distribution", "metric", "group", "id"] ++
      (if o.write_combos then [] else ["highest_combo", "lowest_combo"]) := by
  cases hwc : o.write_combos <;> simp [excludeList, hwc]

/-! The claims. -/

/-- Claim C1: In weighted mode, before any metric evaluation the failure
probability passed to the metric functions is rescaled from the base value
0.01 to (number of edges) / (sum of all edge weights) * 0.01: the
`link_fail_prob` entry of the extra-parameters configuration seen by
`run_all_combos` equals exactly this product for every weighted graph (with
positive total weight, where the Python float division is defined); in
unweighted mode it stays 0.01, and `max_failures` stays 2 in both modes. -/
theorem C1_link_fail_prob_rescaled (METRICS : List String) (gU gW : Graph)
    (raw : RawOptions) (opts : Options)
    (hok : parseArgs METRICS raw = .ok opts)
    (hprior : raw.use_prior_opts = false)
    (hwpos : raw.weighted = true → 0 < gW.edgeWeights.sum) :
    comboExtra (metricsInit METRICS gU gW raw) =
      some { link_fail_prob :=
               if raw.weighted then
                 (gW.number_of_edges : ℚ) / gW.edgeWeights.sum * 0.01
               else 0.01,
             max_failures := 2 } := by
  have hr := parseArgs_ok_toRaw hok
  subst hr
  rw [metricsInit_ok hok, initWithOptions_not_prior hprior]
  cases hw : opts.toRawOptions.weighted <;>
    simp [comboExtra, List.findSome?, extraFor, EXTRA_PARAMS, hw,
      Graph.number_of_edges]

/-- Witness for C1: a concrete weighted run with 3 edges of total weight 9. -/
theorem C1_witness :
    comboExtra (metricsInit ["latency"]
        { number_of_nodes := 5, edgeWeights := [1, 1, 1, 1, 1] }
        { number_of_nodes := 5, edgeWeights := [2, 3, 4] }
        { weighted := true }) =
      some { link_fail_prob :=
               if ({ weighted := true } : RawOptions).weighted then
                 (({ number_of_nodes := 5, edgeWeights := [2, 3, 4] } : Graph).number_of_edges : ℚ) /
                   ({ number_of_nodes := 5, edgeWeights := [2, 3, 4] } : Graph).edgeWeights.sum * 0.01
               else 0.01,
             max_failures := 2 } :=
  C1_link_fail_prob_rescaled ["latency"]
    { number_of_nodes := 5, edgeWeights := [1, 1, 1, 1, 1] }
    { number_of_nodes := 5, edgeWeights := [2, 3, 4] }
    { weighted := true }
    { toRawOptions := { weighted := true }, metrics := ["latency"],
      controllers := none }
    rfl rfl (fun _ => by norm_num)

/-- Claim C2: the controller counts handed to the enumerator are exactly the
explicitly listed counts when a (non-empty) controller list is given — the
range options are ignored, the passed list being the parsed tokens alone —
and otherwise, as a set, the union of the first-N range {1, ..., from_start}
(when compute_start is enabled) and the last-N range
{number_of_nodes - from_end + 1, ..., number_of_nodes} (when compute_end is
enabled), where number_of_nodes is the node count of the loaded graph. -/
theorem C2_controller_counts (METRICS : List String) (gU gW : Graph)
    (raw : RawOptions) (opts : Options)
    (hok : parseArgs METRICS raw = .ok opts)
    (hprior : raw.use_prior_opts = false) :
    (∀ s, raw.controller_list = some s → s ≠ "" →
        comboControllers (metricsInit METRICS gU gW raw) =
          (parseTokens (pySplit s ' ')).toOption) ∧
    (strTruthy raw.controller_list = false →
      ∃ l, comboControllers (metricsInit METRICS gU gW raw) = some l ∧
        l.toFinset =
          (if raw.compute_start then Finset.Icc 1 raw.from_start else ∅) ∪
          (if raw.compute_end then
              Finset.Icc
                (((if raw.weighted then gW else gU).number_of_nodes : Int) -
                  raw.from_end + 1)
                ((if raw.weighted then gW else gU).number_of_nodes : Int)
            else ∅)) := by
  have hr := parseArgs_ok_toRaw hok
  subst hr
  have hcc : comboControllers (metricsInit METRICS gU gW opts.toRawOptions) =
      some (controllersFor (if opts.toRawOptions.weighted then gW else gU) opts) := by
    rw [metricsInit_ok hok, initWithOptions_not_prior hprior]
    simp [comboControllers, List.findSome?]
  constructor
  · intro s hs hne
    have hie : s.isEmpty = false := by
      cases hE : s.isEmpty
      · rfl
      · exact absurd ((String.isEmpty_iff s).mp hE) hne
    have hstr : strTruthy opts.toRawOptions.controller_list = true := by
      rw [hs]
      simp [strTruthy, hie]
    have hlt : listTruthy opts.controllers = true := by
      rw [parseArgs_ok_listTruthy hok, hstr]
    have hc := parseArgs_ok_controllers hok
    unfold controllersResult at hc
    rw [if_pos hstr, hs] at hc
    simp only [Option.getD_some] at hc
    cases hp : parseTokens (pySplit s ' ') with
    | error e => rw [hp] at hc; cases hc
    | ok vals =>
      rw [hp] at hc
      injection hc with hc
      rw [hcc, Except.toOption]
      unfold controllersFor
      rw [if_pos hlt, ← hc]
      rfl
  · intro hstrf
    have hlt : listTruthy opts.controllers = false := by
      rw [parseArgs_ok_listTruthy hok, hstrf]
    refine ⟨controllersFor (if opts.toRawOptions.weighted then gW else gU) opts,
      hcc, ?_⟩
    unfold controllersFor
    rw [hlt]
    simp only [Bool.false_eq_true, if_false]
    cases hcs : opts.toRawOptions.compute_start <;>
      cases hce : opts.toRawOptions.compute_end <;>
      simp [List.toFinset_append, pyRange_toFinset, Int.add_sub_cancel]

/-- Witness for C2 at the default options (no controller list, from_start 3,
from_end 0, both ranges enabled) on a 5-node graph. -/
theorem C2_witness :
    (∀ s, (defaultRawOptions).controller_list = some s → s ≠ "" →
        comboControllers (metricsInit ["latency"]
            { number_of_nodes := 5, edgeWeights := [1, 1, 1, 1, 1] }
            { number_of_nodes := 5, edgeWeights := [2, 3, 4] }
            defaultRawOptions) =
          (parseTokens (pySplit s ' ')).toOption) ∧
    (strTruthy (defaultRawOptions).controller_list = false →
      ∃ l, comboControllers (metricsInit ["latency"]
            { number_of_nodes := 5, edgeWeights := [1, 1, 1, 1, 1] }
            { number_of_nodes := 5, edgeWeights := [2, 3, 4] }
            defaultRawOptions) = some l ∧
        l.toFinset =
          (if (defaultRawOptions).compute_start then
              Finset.Icc 1 (defaultRawOptions).from_start
            else ∅) ∪
          (if (defaultRawOptions).compute_end then
              Finset.Icc
                (((if (defaultRawOptions).weighted then
                      ({ number_of_nodes := 5, edgeWeights := [2, 3, 4] } : Graph)
                    else
                      ({ number_of_nodes := 5, edgeWeights := [1, 1, 1, 1, 1] } : Graph)).number_of_nodes : Int) -
                  (defaultRawOptions).from_end + 1)
                ((if (defaultRawOptions).weighted then
                    ({ number_of_nodes := 5, edgeWeights := [2, 3, 4] } : Graph)
                  else
                    ({ number_of_nodes := 5, edgeWeights := [1, 1, 1, 1, 1] } : Graph)).number_of_nodes : Int)
            else ∅)) :=
  C2_controller_counts ["latency"]
    { number_of_nodes := 5, edgeWeights := [1, 1, 1, 1, 1] }
    { number_of_nodes := 5, edgeWeights := [2, 3, 4] }
    defaultRawOptions
    { toRawOptions := defaultRawOptions, metrics := ["latency"],
      controllers := none }
    rfl rfl

/-- Claim C3 as stated is false: with both the weighted flag and the use-prior-data
flag set, the enumerator is indeed not invoked, but the result data is NOT
loaded from the prior JSON file — the run aborts with a NameError before any
read (cf. C4). -/
theorem C3_counterexample :
    ({ weighted := true, use_prior_opts := true } : RawOptions).use_prior_opts
        = true ∧
    (metricsInit ["latency"]
        { number_of_nodes := 3, edgeWeights := [1, 1, 1] }
        { number_of_nodes := 3, edgeWeights := [2, 2, 2] }
        { weighted := true, use_prior_opts := true }).events.filter
        Event.isReadJson = [] ∧
    (metricsInit ["latency"]
        { number_of_nodes := 3, edgeWeights := [1, 1, 1] }
        { number_of_nodes := 3, edgeWeights := [2, 2, 2] }
        { weighted := true, use_prior_opts := true }).error =
      some (.nameError "PRIOR_OPTS_filename") :=
  ⟨rfl, rfl, rfl⟩

/-- Claim C3 (amended): when the use-prior-data flag is set, run_all_combos is
never invoked and no duration line is printed, and in unweighted mode the
result data is loaded from the prior JSON result file (in weighted mode the
run aborts with an undefined-name error before any read, per C4); when the
flag is unset, run_all_combos is invoked, exactly one numeric duration line
is printed, and no prior file is read. -/
theorem C3_prior_data_path (METRICS : List String) (gU gW : Graph)
    (raw : RawOptions) (opts : Options)
    (hok : parseArgs METRICS raw = .ok opts) :
    (raw.use_prior_opts = true →
      (metricsInit METRICS gU gW raw).events.filter Event.isRunAllCombos = [] ∧
      (metricsInit METRICS gU gW raw).events.filter Event.isPrintDuration = []) ∧
    (raw.use_prior_opts = true → raw.weighted = false →
      (metricsInit METRICS gU gW raw).events.filter Event.isReadJson =
        [.readJson "data_out/os3e_unweighted_9_9.json"] ∧
      (metricsInit METRICS gU gW raw).error = none) ∧
    (raw.use_prior_opts = false →
      (metricsInit METRICS gU gW raw).events.filter Event.isRunAllCombos ≠ [] ∧
      (metricsInit METRICS gU gW raw).events.filter Event.isPrintDuration =
        [.printDuration] ∧
      (metricsInit METRICS gU gW raw).events.filter Event.isReadJson = []) := by
  have hr := parseArgs_ok_toRaw hok
  subst hr
  rw [metricsInit_ok hok]
  refine ⟨?_, ?_, ?_⟩
  · intro hp
    cases hw : opts.toRawOptions.weighted
    · rw [initWithOptions_prior_unweighted hp hw]
      constructor
      · simp [List.filter_append, tail_filter_combo, Event.isRunAllCombos]
      · simp [List.filter_append, tail_filter_printDuration,
          Event.isPrintDuration]
    · rw [initWithOptions_prior_weighted hp hw]
      constructor
      · simp [Event.isRunAllCombos]
      · simp [Event.isPrintDuration]
  · intro hp hw
    rw [initWithOptions_prior_unweighted hp hw]
    constructor
    · simp [List.filter_append, tail_filter_readJson, Event.isReadJson]
    · rfl
  · intro hp
    rw [initWithOptions_not_prior hp]
    refine ⟨?_, ?_, ?_⟩
    · simp [List.filter_append, tail_filter_combo, Event.isRunAllCombos]
    · simp [List.filter_append, tail_filter_printDuration,
        Event.isPrintDuration]
    · simp [List.filter_append, tail_filter_readJson, Event.isReadJson]

/-- Witness for the amended C3: a concrete unweighted prior-data run. -/
theorem C3_witness :
    (({ use_prior_opts := true } : RawOptions).use_prior_opts = true →
      (metricsInit ["latency"]
          { number_of_nodes := 3, edgeWeights := [1, 1, 1] }
          { number_of_nodes := 3, edgeWeights := [2, 2, 2] }
          { use_prior_opts := true }).events.filter Event.isRunAllCombos = [] ∧
      (metricsInit ["latency"]
          { number_of_nodes := 3, edgeWeights := [1, 1, 1] }
          { number_of_nodes := 3, edgeWeights := [2, 2, 2] }
          { use_prior_opts := true }).events.filter Event.isPrintDuration = []) ∧
    (({ use_prior_opts := true } : RawOptions).use_prior_opts = true →
      ({ use_prior_opts := true } : RawOptions).weighted = false →
      (metricsInit ["latency"]
          { number_of_nodes := 3, edgeWeights := [1, 1, 1] }
          { number_of_nodes := 3, edgeWeights := [2, 2, 2] }
          { use_prior_opts := true }).events.filter Event.isReadJson =
        [.readJson "data_out/os3e_unweighted_9_9.json"] ∧
      (metricsInit ["latency"]
          { number_of_nodes := 3, edgeWeights := [1, 1, 1] }
          { number_of_nodes := 3, edgeWeights := [2, 2, 2] }
          { use_prior_opts := true }).error = none) ∧
    (({ use_prior_opts := true } : RawOptions).use_prior_opts = false →
      (metricsInit ["latency"]
          { number_of_nodes := 3, edgeWeights := [1, 1, 1] }
          { number_of_nodes := 3, edgeWeights := [2, 2, 2] }
          { use_prior_opts := true }).events.filter Event.isRunAllCombos ≠ [] ∧
      (metricsInit ["latency"]
          { number_of_nodes := 3, edgeWeights := [1, 1, 1] }
          { number_of_nodes := 3, edgeWeights := [2, 2, 2] }
          { use_prior_opts := true }).events.filter Event.isPrintDuration =
        [.printDuration] ∧
      (metricsInit ["latency"]
          { number_of_nodes := 3, edgeWeights := [1, 1, 1] }
          { number_of_nodes := 3, edgeWeights := [2, 2, 2] }
          { use_prior_opts := true }).events.filter Event.isReadJson = []) :=
  C3_prior_data_path ["latency"]
    { number_of_nodes := 3, edgeWeights := [1, 1, 1] }
    { number_of_nodes := 3, edgeWeights := [2, 2, 2] }
    { use_prior_opts := true }
    { toRawOptions := { use_prior_opts := true }, metrics := ["latency"],
      controllers := none }
    rfl

/-- Claim C4: for every run with both the weighted flag and the use-prior-data flag
set, the program fails with an undefined-name error on PRIOR_OPTS_filename
(assigned only in the unweighted branch) before any file is read and before
any result is produced — no enumerator run, no selector run, no output
write. -/
theorem C4_weighted_prior_name_error (METRICS : List String) (gU gW : Graph)
    (raw : RawOptions) (opts : Options)
    (hok : parseArgs METRICS raw = .ok opts)
    (hw : raw.weighted = true) (hp : raw.use_prior_opts = true) :
    (metricsInit METRICS gU gW raw).error =
      some (.nameError "PRIOR_OPTS_filename") ∧
    (metricsInit METRICS gU gW raw).events.filter Event.isReadJson = [] ∧
    (metricsInit METRICS gU gW raw).events.filter Event.isRunAllCombos = [] ∧
    (metricsInit METRICS gU gW raw).events.filter Event.isGreedy = [] ∧
    (metricsInit METRICS gU gW raw).events.filter Event.isFileWrite = [] := by
  have hr := parseArgs_ok_toRaw hok
  subst hr
  rw [metricsInit_ok hok, initWithOptions_prior_weighted hp hw]
  refine ⟨rfl, ?_, ?_, ?_, ?_⟩ <;>
    simp [Event.isReadJson, Event.isRunAllCombos, Event.isGreedy,
      Event.isFileWrite]

/-- Witness for C4: a concrete weighted prior-data run. -/
theorem C4_witness :
    (metricsInit ["latency"]
        { number_of_nodes := 4, edgeWeights := [1, 1, 1, 1] }
        { number_of_nodes := 4, edgeWeights := [5, 5, 5, 5] }
        { weighted := true, use_prior_opts := true }).error =
      some (.nameError "PRIOR_OPTS_filename") ∧
    (metricsInit ["latency"]
        { number_of_nodes := 4, edgeWeights := [1, 1, 1, 1] }
        { number_of_nodes := 4, edgeWeights := [5, 5, 5, 5] }
        { weighted := true, use_prior_opts := true }).events.filter
        Event.isReadJson = [] ∧
    (metricsInit ["latency"]
        { number_of_nodes := 4, edgeWeights := [1, 1, 1, 1] }
        { number_of_nodes := 4, edgeWeights := [5, 5, 5, 5] }
        { weighted := true, use_prior_opts := true }).events.filter
        Event.isRunAllCombos = [] ∧
    (metricsInit ["latency"]
        { number_of_nodes := 4, edgeWeights := [1, 1, 1, 1] }
        { number_of_nodes := 4, edgeWeights := [5, 5, 5, 5] }
        { weighted := true, use_prior_opts := true }).events.filter
        Event.isGreedy = [] ∧
    (metricsInit ["latency"]
        { number_of_nodes := 4, edgeWeights := [1, 1, 1, 1] }
        { number_of_nodes := 4, edgeWeights := [5, 5, 5, 5] }
        { weighted := true, use_prior_opts := true }).events.filter
        Event.isFileWrite = [] :=
  C4_weighted_prior_name_error ["latency"]
    { number_of_nodes := 4, edgeWeights := [1, 1, 1, 1] }
    { number_of_nodes := 4, edgeWeights := [5, 5, 5, 5] }
    { weighted := true, use_prior_opts := true }
    { toRawOptions := { weighted := true, use_prior_opts := true },
      metrics := ["latency"], controllers := none }
    rfl rfl rfl

/-- Claim C5: the metric list is decided by a fixed precedence — the full catalogue
when the all-metrics flag is set; otherwise exactly ['latency', 'wc_latency']
when the latency-bundle flag is set; otherwise the single selected metric —
for every combination of the two flags and the metric option, and this list
is what reaches the enumerator. -/
theorem C5_metric_selection (METRICS : List String) (gU gW : Graph)
    (raw : RawOptions) (opts : Options)
    (hok : parseArgs METRICS raw = .ok opts) :
    opts.metrics =
      (if raw.all_metrics then METRICS
       else if raw.lat_metrics then ["latency", "wc_latency"]
       else [raw.metric]) ∧
    (raw.use_prior_opts = false →
      comboMetrics (metricsInit METRICS gU gW raw) = some opts.metrics) := by
  have hr := parseArgs_ok_toRaw hok
  subst hr
  constructor
  · rw [parseArgs_ok_metrics hok]
    rfl
  · intro hp
    rw [metricsInit_ok hok, initWithOptions_not_prior hp]
    simp [comboMetrics, List.findSome?]

/-- Witness for C5 with the latency-bundle flag set. -/
theorem C5_witness :
    ({ toRawOptions := { lat_metrics := true },
       metrics := ["latency", "wc_latency"],
       controllers := none } : Options).metrics =
      (if ({ lat_metrics := true } : RawOptions).all_metrics then
          ["latency", "wc_latency", "fairness"]
       else if ({ lat_metrics := true } : RawOptions).lat_metrics then
          ["latency", "wc_latency"]
       else [({ lat_metrics := true } : RawOptions).metric]) ∧
    (({ lat_metrics := true } : RawOptions).use_prior_opts = false →
      comboMetrics (metricsInit ["latency", "wc_latency", "fairness"]
          { number_of_nodes := 3, edgeWeights := [1, 1, 1] }
          { number_of_nodes := 3, edgeWeights := [2, 2, 2] }
          { lat_metrics := true }) =
        some ({ toRawOptions := { lat_metrics := true },
                metrics := ["latency", "wc_latency"],
                controllers := none } : Options).metrics) :=
  C5_metric_selection ["latency", "wc_latency", "fairness"]
    { number_of_nodes := 3, edgeWeights := [1, 1, 1] }
    { number_of_nodes := 3, edgeWeights := [2, 2, 2] }
    { lat_metrics := true }
    { toRawOptions := { lat_metrics := true },
      metrics := ["latency", "wc_latency"], controllers := none }
    rfl

/-- Claim C6: an unknown metric name, or a controller-list token on which int()
raises, makes the run fail during argument parsing: the trace is empty — the
topology is never loaded and no metric computation begins — and the
terminating error is a configuration (parse) error. -/
theorem C6_config_error_aborts (METRICS : List String) (gU gW : Graph)
    (raw : RawOptions)
    (h : raw.metric ∉ METRICS ∨
         (strTruthy raw.controller_list = true ∧
           ∃ t ∈ pySplit (raw.controller_list.getD "") ' ',
             pyParseInt t = none)) :
    (metricsInit METRICS gU gW raw).events = [] ∧
    ∃ e, (metricsInit METRICS gU gW raw).error = some (.parseError e) := by
  have herr : ∃ e, parseArgs METRICS raw = .error e := by
    by_cases hm : raw.metric ∈ METRICS
    · rcases h with hbad | ⟨hstr, t, ht, hbad⟩
      · exact absurd hm hbad
      · obtain ⟨e, he⟩ := parseTokens_error_of_mem t ht hbad
        refine ⟨e, ?_⟩
        unfold parseArgs controllersResult
        rw [if_pos hm, if_pos hstr, he]
    · exact ⟨.badMetricChoice raw.metric, by unfold parseArgs; rw [if_neg hm]⟩
  obtain ⟨e, he⟩ := herr
  rw [metricsInit_err he]
  exact ⟨rfl, e, rfl⟩

/-- Witness for C6: a controller list containing the non-integer token x. -/
theorem C6_witness :
    (metricsInit ["latency"]
        { number_of_nodes := 3, edgeWeights := [1, 1, 1] }
        { number_of_nodes := 3, edgeWeights := [2, 2, 2] }
        { controller_list := some "1 x" }).events = [] ∧
    ∃ e, (metricsInit ["latency"]
        { number_of_nodes := 3, edgeWeights := [1, 1, 1] }
        { number_of_nodes := 3, edgeWeights := [2, 2, 2] }
        { controller_list := some "1 x" }).error = some (.parseError e) :=
  C6_config_error_aborts ["latency"]
    { number_of_nodes := 3, edgeWeights := [1, 1, 1] }
    { number_of_nodes := 3, edgeWeights := [2, 2, 2] }
    { controller_list := some "1 x" }
    (Or.inr ⟨rfl, "x", by decide, by decide⟩)

/-- Claim C7 as stated is false: with the distribution-only flag disabled but both
the weighted and the use-prior-data flags set, the run aborts before the
selector phase, so no greedy selector runs although dist_only is disabled —
the claimed if-and-only-if fails in this direction. -/
theorem C7_counterexample :
    ({ weighted := true, use_prior_opts := true, dist_only := false } :
        RawOptions).dist_only = false ∧
    (metricsInit ["latency"]
        { number_of_nodes := 3, edgeWeights := [1, 1, 1] }
        { number_of_nodes := 3, edgeWeights := [2, 2, 2] }
        { weighted := true, use_prior_opts := true,
          dist_only := false }).events.filter Event.isGreedy = [] :=
  ⟨rfl, rfl⟩

/-- Claim C7 (amended): on every run that does not hit the weighted+prior-data
abort of C4, the greedy/heuristic selectors run iff the distribution-only
flag is disabled, and they are then exactly: one informed-greedy run, one
greedy-by-dict run labeled greedy-cc ranked by closeness centrality targeting
latency, one greedy-by-dict run labeled greedy-dc ranked by degree centrality
targeting latency, and one best-n plus one worst-n run for each n in
{10, 100, 1000}, each as a separate recorded call. -/
theorem C7_greedy_selectors (METRICS : List String) (gU gW : Graph)
    (raw : RawOptions) (opts : Options)
    (hok : parseArgs METRICS raw = .ok opts)
    (hnab : ¬(raw.weighted = true ∧ raw.use_prior_opts = true)) :
    (metricsInit METRICS gU gW raw).events.filter Event.isGreedy =
      if raw.dist_only then []
      else greedyCalls (builtAPSP gU gW raw.weighted) raw.weighted := by
  have hr := parseArgs_ok_toRaw hok
  subst hr
  rw [metricsInit_ok hok]
  cases hp : opts.toRawOptions.use_prior_opts
  · rw [initWithOptions_not_prior hp]
    simp [List.filter_append, tail_filter_greedy, Event.isGreedy]
  · cases hw : opts.toRawOptions.weighted
    · rw [initWithOptions_prior_unweighted hp hw]
      simp [List.filter_append, tail_filter_greedy, Event.isGreedy, hw]
    · exact absurd ⟨hw, hp⟩ hnab

/-- Witness for the amended C7: a concrete run with dist_only disabled. -/
theorem C7_witness :
    (metricsInit ["latency"]
        { number_of_nodes := 3, edgeWeights := [1, 1, 1] }
        { number_of_nodes := 3, edgeWeights := [2, 2, 2] }
        { dist_only := false }).events.filter Event.isGreedy =
      if ({ dist_only := false } : RawOptions).dist_only then []
      else greedyCalls
        (builtAPSP { number_of_nodes := 3, edgeWeights := [1, 1, 1] }
          { number_of_nodes := 3, edgeWeights := [2, 2, 2] }
          ({ dist_only := false } : RawOptions).weighted)
        ({ dist_only := false } : RawOptions).weighted :=
  C7_greedy_selectors ["latency"]
    { number_of_nodes := 3, edgeWeights := [1, 1, 1] }
    { number_of_nodes := 3, edgeWeights := [2, 2, 2] }
    { dist_only := false }
    { toRawOptions := { dist_only := false }, metrics := ["latency"],
      controllers := none }
    rfl (by simp)

/-- Claim C8: the all-pairs path index is built exactly once per run, immediately
after the topology load and before every later event (in particular before
any placement evaluation); it is the Dijkstra index of the weighted graph iff
the weighted flag is set and the hop-count index of the unweighted graph
otherwise; and every consumer — the enumerator and every greedy selector —
receives exactly that one index. -/
theorem C8_apsp_built_once (METRICS : List String) (gU gW : Graph)
    (raw : RawOptions) (opts : Options)
    (hok : parseArgs METRICS raw = .ok opts) :
    (metricsInit METRICS gU gW raw).events.filter Event.isBuildAPSP =
      [.buildAPSP (builtAPSP gU gW raw.weighted)] ∧
    (metricsInit METRICS gU gW raw).events.take 2 =
      [.loadGraph raw.weighted, .buildAPSP (builtAPSP gU gW raw.weighted)] ∧
    (∀ e ∈ (metricsInit METRICS gU gW raw).events,
        ∀ a, e.apspUsed = some a → a = builtAPSP gU gW raw.weighted) := by
  have hr := parseArgs_ok_toRaw hok
  subst hr
  rw [metricsInit_ok hok]
  cases hp : opts.toRawOptions.use_prior_opts
  · rw [initWithOptions_not_prior hp]
    refine ⟨?_, rfl, ?_⟩
    · simp [List.filter_append, tail_filter_buildAPSP, Event.isBuildAPSP]
    · intro e he a ha
      rcases List.mem_append.mp he with h12 | htail
      · rcases List.mem_append.mp h12 with hpro | hmid
        · simp only [List.mem_cons, List.not_mem_nil, or_false] at hpro
          rcases hpro with rfl | rfl <;> exact Option.noConfusion ha
        · simp only [List.mem_cons, List.not_mem_nil, or_false] at hmid
          rcases hmid with rfl | rfl
          · simp only [Event.apspUsed, Option.some.injEq] at ha
            exact ha.symm
          · exact Option.noConfusion ha
      · rcases tail_apspUsed htail with hnone | hsome
        · rw [hnone] at ha
          exact Option.noConfusion ha
        · rw [hsome] at ha
          injection ha with ha
          exact ha.symm
  · cases hw : opts.toRawOptions.weighted
    · rw [initWithOptions_prior_unweighted hp hw, hw]
      refine ⟨?_, rfl, ?_⟩
      · simp [List.filter_append, tail_filter_buildAPSP, Event.isBuildAPSP]
      · intro e he a ha
        rcases List.mem_append.mp he with h12 | htail
        · rcases List.mem_append.mp h12 with hpro | hmid
          · simp only [List.mem_cons, List.not_mem_nil, or_false] at hpro
            rcases hpro with rfl | rfl <;> exact Option.noConfusion ha
          · simp only [List.mem_cons, List.not_mem_nil, or_false] at hmid
            subst hmid
            exact Option.noConfusion ha
        · rcases tail_apspUsed htail with hnone | hsome
          · rw [hnone] at ha
            exact Option.noConfusion ha
          · rw [hsome] at ha
            injection ha with ha
            exact ha.symm
    · rw [initWithOptions_prior_weighted hp hw, hw]
      refine ⟨?_, rfl, ?_⟩
      · simp [Event.isBuildAPSP]
      · intro e he a ha
        simp only [List.mem_cons, List.not_mem_nil, or_false] at he
        rcases he with rfl | rfl <;> exact Option.noConfusion ha

/-- Witness for C8 at the default options. -/
theorem C8_witness :
    (metricsInit ["latency"]
        { number_of_nodes := 3, edgeWeights := [1, 1, 1] }
        { number_of_nodes := 3, edgeWeights := [2, 2, 2] }
        defaultRawOptions).events.filter Event.isBuildAPSP =
      [.buildAPSP (builtAPSP { number_of_nodes := 3, edgeWeights := [1, 1, 1] }
          { number_of_nodes := 3, edgeWeights := [2, 2, 2] }
          (defaultRawOptions).weighted)] ∧
    (metricsInit ["latency"]
        { number_of_nodes := 3, edgeWeights := [1, 1, 1] }
        { number_of_nodes := 3, edgeWeights := [2, 2, 2] }
        defaultRawOptions).events.take 2 =
      [.loadGraph (defaultRawOptions).weighted,
       .buildAPSP (builtAPSP { number_of_nodes := 3, edgeWeights := [1, 1, 1] }
          { number_of_nodes := 3, edgeWeights := [2, 2, 2] }
          (defaultRawOptions).weighted)] ∧
    (∀ e ∈ (metricsInit ["latency"]
        { number_of_nodes := 3, edgeWeights := [1, 1, 1] }
        { number_of_nodes := 3, edgeWeights := [2, 2, 2] }
        defaultRawOptions).events,
      ∀ a, e.apspUsed = some a →
        a = builtAPSP { number_of_nodes := 3, edgeWeights := [1, 1, 1] }
          { number_of_nodes := 3, edgeWeights := [2, 2, 2] }
          (defaultRawOptions).weighted) :=
  C8_apsp_built_once ["latency"]
    { number_of_nodes := 3, edgeWeights := [1, 1, 1] }
    { number_of_nodes := 3, edgeWeights := [2, 2, 2] }
    defaultRawOptions
    { toRawOptions := defaultRawOptions, metrics := ["latency"],
      controllers := none }
    rfl

/-- Claim C9: parallel evaluation is on by default with a worker pool of 4 and a
batch size of 50, and the parallel flag, worker count and batch size are
passed unchanged from the options into the enumerator call. -/
theorem C9_schedule_params (METRICS : List String) (gU gW : Graph)
    (raw : RawOptions) (opts : Options)
    (hok : parseArgs METRICS raw = .ok opts)
    (hprior : raw.use_prior_opts = false) :
    comboSchedule (metricsInit METRICS gU gW raw) =
      some (raw.processes, raw.multiprocess, raw.chunksize) ∧
    defaultRawOptions.multiprocess = true ∧
    defaultRawOptions.processes = 4 ∧
    defaultRawOptions.chunksize = 50 := by
  have hr := parseArgs_ok_toRaw hok
  subst hr
  rw [metricsInit_ok hok, initWithOptions_not_prior hprior]
  refine ⟨?_, rfl, rfl, rfl⟩
  simp [comboSchedule, List.findSome?]

/-- Witness for C9 at the default options. -/
theorem C9_witness :
    comboSchedule (metricsInit ["latency"]
        { number_of_nodes := 3, edgeWeights := [1, 1, 1] }
        { number_of_nodes := 3, edgeWeights := [2, 2, 2] }
        defaultRawOptions) =
      some ((defaultRawOptions).processes, (defaultRawOptions).multiprocess,
        (defaultRawOptions).chunksize) ∧
    defaultRawOptions.multiprocess = true ∧
    defaultRawOptions.processes = 4 ∧
    defaultRawOptions.chunksize = 50 :=
  C9_schedule_params ["latency"]
    { number_of_nodes := 3, edgeWeights := [1, 1, 1] }
    { number_of_nodes := 3, edgeWeights := [2, 2, 2] }
    defaultRawOptions
    { toRawOptions := defaultRawOptions, metrics := ["latency"],
      controllers := none }
    rfl rfl

/-- Claim C10: no output file is written unless the write flag is set; the
distribution CSV is written only when both the write and the
write-distribution flags are set; and every CSV written (main or
distribution) excludes exactly the columns distribution, metric, group and
id, plus highest_combo and lowest_combo unless the write-combinations flag is
set. -/
theorem C10_write_gating (METRICS : List String) (gU gW : Graph)
    (raw : RawOptions) :
    (raw.write = false →
      (metricsInit METRICS gU gW raw).events.filter Event.isFileWrite = []) ∧
    (∀ f ex, Event.writeDistCsv f ex ∈ (metricsInit METRICS gU gW raw).events →
      raw.write = true ∧ raw.write_dist = true) ∧
    (∀ f ex, Event.writeCsv f ex ∈ (metricsInit METRICS gU gW raw).events →
      ex = ["distribution", "metric", "group", "id"] ++
        (if raw.write_combos then [] else ["highest_combo", "lowest_combo"])) ∧
    (∀ f ex, Event.writeDistCsv f ex ∈ (metricsInit METRICS gU gW raw).events →
      ex = ["distribution", "metric", "group", "id"] ++
        (if raw.write_combos then [] else ["highest_combo", "lowest_combo"])) := by
  cases hpa : parseArgs METRICS raw with
  | error e =>
    rw [metricsInit_err hpa]
    refine ⟨fun _ => rfl, ?_, ?_, ?_⟩ <;> intro f ex hmem <;> cases hmem
  | ok opts =>
    have hr := parseArgs_ok_toRaw hpa
    subst hr
    rw [metricsInit_ok hpa]
    refine ⟨?_, ?_, ?_, ?_⟩
    · intro hwf
      rw [List.filter_eq_nil_iff]
      intro e he hp
      have hmem := mem_init_fileWrite hp he
      unfold writeEvents at hmem
      rw [if_neg (by rw [hwf]; exact Bool.false_ne_true)] at hmem
      cases hmem
    · intro f ex hmem
      have h := mem_init_fileWrite
        (show (Event.writeDistCsv f ex).isFileWrite = true from rfl) hmem
      exact (mem_writeEvents_writeDistCsv h).2
    · intro f ex hmem
      have h := mem_init_fileWrite
        (show (Event.writeCsv f ex).isFileWrite = true from rfl) hmem
      rw [mem_writeEvents_writeCsv h]
      exact excludeList_eq opts
    · intro f ex hmem
      have h := mem_init_fileWrite
        (show (Event.writeDistCsv f ex).isFileWrite = true from rfl) hmem
      rw [(mem_writeEvents_writeDistCsv h).1]
      exact excludeList_eq opts

/-- Witness for C10: a run with the write and write_dist flags set. -/
theorem C10_witness :
    (({ write := true, write_dist := true } : RawOptions).write = false →
      (metricsInit ["latency"]
          { number_of_nodes := 3, edgeWeights := [1, 1, 1] }
          { number_of_nodes := 3, edgeWeights := [2, 2, 2] }
          { write := true, write_dist := true }).events.filter
          Event.isFileWrite = []) ∧
    (∀ f ex, Event.writeDistCsv f ex ∈ (metricsInit ["latency"]
          { number_of_nodes := 3, edgeWeights := [1, 1, 1] }
          { number_of_nodes := 3, edgeWeights := [2, 2, 2] }
          { write := true, write_dist := true }).events →
      ({ write := true, write_dist := true } : RawOptions).write = true ∧
      ({ write := true, write_dist := true } : RawOptions).write_dist = true) ∧
    (∀ f ex, Event.writeCsv f ex ∈ (metricsInit ["latency"]
          { number_of_nodes := 3, edgeWeights := [1, 1, 1] }
          { number_of_nodes := 3, edgeWeights := [2, 2, 2] }
          { write := true, write_dist := true }).events →
      ex = ["distribution", "metric", "group", "id"] ++
        (if ({ write := true, write_dist := true } : RawOptions).write_combos
         then [] else ["highest_combo", "lowest_combo"])) ∧
    (∀ f ex, Event.writeDistCsv f ex ∈ (metricsInit ["latency"]
          { number_of_nodes := 3, edgeWeights := [1, 1, 1] }
          { number_of_nodes := 3, edgeWeights := [2, 2, 2] }
          { write := true, write_dist := true }).events →
      ex = ["distribution", "metric", "group", "id"] ++
        (if ({ write := true, write_dist := true } : RawOptions).write_combos
         then [] else ["highest_combo", "lowest_combo"])) :=
  C10_write_gating ["latency"]
    { number_of_nodes := 3, edgeWeights := [1, 1, 1] }
    { number_of_nodes := 3, edgeWeights := [2, 2, 2] }
    { write := true, write_dist := true }

end CPP
